import Mathlib

/-!
Shallow embedding of the `momentum` repository: the interactive quiz
(`quiz.py`, `server/quiz.py` — input collection and report rendering) and the
two-stage suggestion pipeline (`server/routine.py`).  Interactive input is
modelled as a script (a list of the strings returned by `get_input`), file and
network effects as explicit environments recording each fallible operation's
outcome, and console output as an explicit list of emitted messages.
-/

namespace Momentum

/-- Lowercasing as performed by Python's `str.lower` (per-character fold). -/
def pyLower (s : String) : String := String.mk (s.data.map Char.toLower)

/-- Substring test on character lists: does `needle` occur contiguously inside
the second list?  This models Python's `needle in hay` on strings. -/
def containsSub (needle : List Char) : List Char → Bool
  | [] => needle.isEmpty
  | c :: rest => needle.isPrefixOf (c :: rest) || containsSub needle rest

/-- Python's `needle in hay` substring operator. -/
def strContains (hay needle : String) : Bool := containsSub needle.data hay.data

/-- Numeric value of a list of decimal digits. -/
def digitsVal (cs : List Char) : Nat :=
  cs.foldl (fun a c => 10 * a + (c.toNat - '0'.toNat)) 0

/-- Conversion of a digit run to a number, failing on the empty run or on any
non-digit character. -/
def digitsToNat (cs : List Char) : Option Nat :=
  if cs ≠ [] ∧ cs.all Char.isDigit then some (digitsVal cs) else none

/-- Python's `int(s)` on an already-stripped string: an optional sign followed
by a non-empty run of decimal digits; anything else raises `ValueError`,
modelled as `none`. -/
def pyParseInt (s : String) : Option Int :=
  match s.data with
  | '-' :: cs => (digitsToNat cs).map (fun n => -(n : Int))
  | '+' :: cs => (digitsToNat cs).map (fun n => (n : Int))
  | cs => (digitsToNat cs).map (fun n => (n : Int))

/-- The validated-choice loop of `get_choice` (`server/quiz.py` lines 9-26):
the script is the sequence of values `get_input` returns.  Each entry is fed
to `int(...)`; a parsed number inside `[1, len(options)]` selects
`options[choice_num - 1]` and stops; otherwise a corrective message is emitted
and the loop re-prompts.  An exhausted script (the loop would keep waiting for
input) is `none`.  The result pairs the selected option text with the emitted
corrective messages. -/
def get_choice (options : List String) : List String → Option String × List String
  | [] => (none, [])
  | input :: rest =>
    match pyParseInt input with
    | some n =>
      if 1 ≤ n ∧ n ≤ (options.length : Int) then
        (options[(n - 1).toNat]?, [])
      else
        let r := get_choice options rest
        (r.fst,
          ("Invalid choice. Please enter a number between 1 and "
            ++ (toString options.length ++ ".")) :: r.snd)
    | none =>
      let r := get_choice options rest
      (r.fst, "Invalid input. Please enter a number." :: r.snd)

/-- The collection loop of `get_list_items` (`server/quiz.py` lines 28-39):
entries are appended in order until one lowercases to `"done"`, which is not
appended.  A script with no terminator leaves the loop waiting (`none`). -/
def get_list_items : List String → Option (List String)
  | [] => none
  | item :: rest =>
    if pyLower item = "done" then some []
    else (get_list_items rest).map (fun items => item :: items)

/-- The commitment summary string built by `get_fixed_commitments`
(`server/quiz.py` line 58):
`f"{name} ({location}) on {days} from {start_time} to {end_time}"`. -/
def commitment_str (name days start_time end_time location : String) : String :=
  name ++ (" (" ++ (location ++ (") on "
    ++ (days ++ (" from " ++ (start_time ++ (" to " ++ end_time)))))))

/-- The collection loop of `get_fixed_commitments` (`server/quiz.py` lines
41-61): each iteration reads a name; `"done"` (case-insensitively) stops;
otherwise four follow-up fields are read and folded into `commitment_str`. -/
def get_fixed_commitments : List String → Option (List String)
  | [] => none
  | name :: rest =>
    if pyLower name = "done" then some []
    else
      match rest with
      | days :: start_time :: end_time :: location :: rest2 =>
        (get_fixed_commitments rest2).map
          (fun cs => commitment_str name days start_time end_time location :: cs)
      | _ => none

/-- The completed `responses` dictionary assembled by `main`
(`server/quiz.py` lines 167-227).  `commute_time` is the one key that `main`
only sets for the commuter branch, hence an `Option`. -/
structure Profile where
  living_situation : String
  home_base : String
  commute_time : Option String
  commitments : List String
  wake_time : String
  bed_time : String
  workday_start : String
  workday_end : String
  focus_time : String
  study_style : String
  task_approach : String
  study_spots : List String
  study_hours_goal : String
  meals : String
  exercise_freq : String
  exercise_duration : String
  downtime : String

/-- The fixed banner `"="*70`. -/
def eqBanner : String := String.mk (List.replicate 70 '=')

/-- Header block of the report (`print_summary`, `server/quiz.py` lines 73-78). -/
def headerLines : List String :=
  [eqBanner,
   " STUDENT WELLNESS & HABITS PROFILE",
   eqBanner,
   "This report summarizes the student's self-reported daily habits,",
   "commitments, and preferences to inform support strategies.\n"]

/-- The optional average-commute line (`server/quiz.py` lines 85-86), emitted
exactly when the `commute_time` key is present. -/
def commuteLines (p : Profile) : List String :=
  match p.commute_time with
  | some c => ["* Average Commute: " ++ (c ++ " (one-way)")]
  | none => []

/-- The fixed-commitments block (`server/quiz.py` lines 89-93): one bullet per
commitment, or the literal placeholder when the list is empty. -/
def commitmentLines (p : Profile) : List String :=
  if p.commitments.isEmpty then ["  - No fixed commitments reported."]
  else p.commitments.map (fun item => "  - " ++ item)

/-- Section 1 of the report (`server/quiz.py` lines 81-93). -/
def sec1Lines (p : Profile) : List String :=
  ["--- 1. Logistics & Commitments ---",
   "* Living Situation: " ++ p.living_situation,
   "* Home Base / Parking: " ++ p.home_base]
  ++ commuteLines p
  ++ ["\n* Fixed Commitments:"]
  ++ commitmentLines p

/-- Section 2 of the report (`server/quiz.py` lines 96-102). -/
def sec2Lines (p : Profile) : List String :=
  ["\n--- 2. Daily Rhythm & Energy ---",
   "* Ideal Sleep Schedule: Wake up at "
     ++ (p.wake_time ++ (" and go to sleep at " ++ p.bed_time)),
   "* Preferred 'Workday': " ++ (p.workday_start ++ (" to " ++ p.workday_end)),
   "* Peak Focus Time: " ++ p.focus_time,
   "\n  > Advisor Note: Compare ideal sleep with actual commitments.",
   "    A '" ++ (p.focus_time ++ "' preference may conflict with"),
   "    an early class schedule, creating a friction point."]

/-- The comma-joined study-spots text (`server/quiz.py` line 110). -/
def spotsText (p : Profile) : String :=
  if p.study_spots.isEmpty then "None reported"
  else String.intercalate ", " p.study_spots

/-- Section 3 of the report (`server/quiz.py` lines 105-116). -/
def sec3Lines (p : Profile) : List String :=
  ["\n--- 3. Study & Work Preferences ---",
   "* Preferred Study Style: " ++ p.study_style,
   "* Task Management: " ++ p.task_approach,
   "* Weekly Study Goal: " ++ (p.study_hours_goal ++ " hours"),
   "* Favorite Study Spots: " ++ spotsText p,
   "\n  > Advisor Note: The goal of " ++ (p.study_hours_goal ++ " hours/week"),
   "    is a key self-reported pressure point. The student's task",
   "    approach ('" ++ (p.task_approach ++ "') is a good indicator"),
   "    of their coping mechanism for difficult work."]

/-- Section 4 of the report (`server/quiz.py` lines 119-123). -/
def sec4Lines (p : Profile) : List String :=
  ["\n--- 4. Personal Habits & Well-being ---",
   "* Meal Habits: " ++ p.meals,
   "* Exercise Frequency: " ++ p.exercise_freq,
   "* Exercise Duration: " ++ p.exercise_duration,
   "* Scheduled Downtime: " ++ p.downtime]

/-- The burnout-risk guard of `print_summary` (`server/quiz.py` lines 126-128):
`'no' in downtime.lower() or 'fill' in downtime.lower() or
'just fill' in downtime.lower()`. -/
def burnoutCond (downtime : String) : Bool :=
  strContains (pyLower downtime) "no" || strContains (pyLower downtime) "fill"
    || strContains (pyLower downtime) "just fill"

/-- The two-substring condition in the words of the specification: case-folded
`downtime` contains `"no"` or contains `"fill"`.  Compared against the source's
`burnoutCond` (whose third clause is redundant). -/
def burnoutCondSpec (downtime : String) : Bool :=
  strContains (pyLower downtime) "no" || strContains (pyLower downtime) "fill"

/-- The burnout-risk warning block (`server/quiz.py` lines 130-134), quoting
the verbatim downtime response. -/
def burnoutLines (downtime : String) : List String :=
  ["\n  *** KEY ADVISOR NOTE: BURNOUT RISK ***",
   "  Student reported NOT scheduling dedicated downtime",
   "  (Response: '" ++ (downtime ++ "')."),
   "  This is a primary risk factor for burnout and a key",
   "  area for intervention and discussion."]

/-- The neutral affirming note (`server/quiz.py` lines 136-139). -/
def neutralLines : List String :=
  ["\n  > Advisor Note: The student's meal, exercise, and downtime",
   "    habits are foundational to well-being. Their stated",
   "    downtime preference is a good starting point for",
   "    building a sustainable work-life balance."]

/-- The conditional closing annotation (`server/quiz.py` lines 126-139). -/
def finalNoteLines (p : Profile) : List String :=
  if burnoutCond p.downtime then burnoutLines p.downtime else neutralLines

/-- The full `report_lines` list assembled by `print_summary`
(`server/quiz.py` lines 64-141), in source order. -/
def buildReportLines (p : Profile) : List String :=
  headerLines ++ sec1Lines p ++ sec2Lines p ++ sec3Lines p ++ sec4Lines p
    ++ finalNoteLines p ++ ["\n" ++ eqBanner]

/-- `final_report = "\n".join(report_lines)` (`server/quiz.py` line 145). -/
def final_report (p : Profile) : String :=
  String.intercalate "\n" (buildReportLines p)

/-- The persistence-and-echo step of `print_summary` (`server/quiz.py` lines
148-164): the outcome of the file write is given by the environment; the
returned list is everything printed to the console. -/
def print_summary (p : Profile) (writeResult : Except String Unit) : List String :=
  match writeResult with
  | .ok _ =>
    [final_report p,
     "\n... This profile has been successfully saved to 'profile.txt'."]
  | .error e =>
    ["\n--- ERROR ---",
     "Could not save profile to 'profile.txt'. Error: " ++ e,
     "Here is your profile output instead:\n",
     final_report p]

/-- JSON values as produced by `json.loads` for the fragment this pipeline
manipulates (numerals are modelled as integers; fractional numerals are
outside the fragment exercised here). -/
inductive Json where
  | null : Json
  | bool (b : Bool) : Json
  | num (n : Int) : Json
  | str (s : String) : Json
  | arr (elements : List Json) : Json
  | obj (fields : List (String × Json)) : Json

/-- JSON insignificant whitespace. -/
def jsonWs (c : Char) : Bool := c = ' ' || c = '\n' || c = '\t' || c = '\r'

/-- Skip leading JSON whitespace. -/
def skipWs : List Char → List Char
  | [] => []
  | c :: rest => if jsonWs c then skipWs rest else c :: rest

/-- Opening curly bracket character. -/
def lbrace : Char := Char.ofNat 123

/-- Closing curly bracket character. -/
def rbrace : Char := Char.ofNat 125

/-- Body of a JSON string literal, after the opening quote, with the common
escape sequences; returns the decoded string and the remaining input. -/
def parseStringBody : Nat → List Char → Option (String × List Char)
  | 0, _ => none
  | _, [] => none
  | fuel + 1, c :: rest =>
    if c = '"' then some ("", rest)
    else if c = '\\' then
      match rest with
      | [] => none
      | e :: rest2 =>
        let dec : Option Char :=
          if e = '"' then some '"'
          else if e = '\\' then some '\\'
          else if e = '/' then some '/'
          else if e = 'n' then some '\n'
          else if e = 't' then some '\t'
          else if e = 'r' then some '\r'
          else none
        match dec with
        | none => none
        | some d =>
          (parseStringBody fuel rest2).map
            (fun r => (String.mk (d :: r.fst.data), r.snd))
    else
      (parseStringBody fuel rest).map
        (fun r => (String.mk (c :: r.fst.data), r.snd))

/-- Longest leading run of decimal digits, with the remaining input. -/
def takeDigits : List Char → List Char × List Char
  | [] => ([], [])
  | c :: rest =>
    if c.isDigit then
      let r := takeDigits rest
      (c :: r.fst, r.snd)
    else ([], c :: rest)

mutual

/-- Fueled recursive-descent parse of one JSON value, modelling `json.loads`
on the fragment described at `Json`. -/
def parseValue : Nat → List Char → Option (Json × List Char)
  | 0, _ => none
  | fuel + 1, input =>
    match skipWs input with
    | [] => none
    | c :: rest =>
      if c = 'n' then
        if ['u', 'l', 'l'].isPrefixOf rest then some (.null, rest.drop 3) else none
      else if c = 't' then
        if ['r', 'u', 'e'].isPrefixOf rest then some (.bool true, rest.drop 3) else none
      else if c = 'f' then
        if ['a', 'l', 's', 'e'].isPrefixOf rest then some (.bool false, rest.drop 4)
        else none
      else if c = '"' then
        (parseStringBody (fuel + 1) rest).map (fun r => (.str r.fst, r.snd))
      else if c = '-' then
        match takeDigits rest with
        | ([], _) => none
        | (ds, rest2) => some (.num (-(digitsVal ds : Int)), rest2)
      else if c.isDigit then
        match takeDigits (c :: rest) with
        | (ds, rest2) => some (.num (digitsVal ds), rest2)
      else if c = '[' then
        match skipWs rest with
        | [] => none
        | d :: rest2 =>
          if d = ']' then some (.arr [], rest2)
          else (parseElems fuel rest).map (fun r => (.arr r.fst, r.snd))
      else if c = lbrace then
        match skipWs rest with
        | [] => none
        | d :: rest2 =>
          if d = rbrace then some (.obj [], rest2)
          else (parseMembers fuel rest).map (fun r => (.obj r.fst, r.snd))
      else none

/-- Fueled parse of the comma-separated elements of a non-empty JSON array,
up to and including the closing square bracket. -/
def parseElems : Nat → List Char → Option (List Json × List Char)
  | 0, _ => none
  | fuel + 1, input =>
    match parseValue fuel input with
    | none => none
    | some (v, rest) =>
      match skipWs rest with
      | ',' :: rest2 => (parseElems fuel rest2).map (fun r => (v :: r.fst, r.snd))
      | ']' :: rest2 => some ([v], rest2)
      | _ => none

/-- Fueled parse of the comma-separated members of a non-empty JSON object,
up to and including the closing curly bracket. -/
def parseMembers : Nat → List Char → Option (List (String × Json) × List Char)
  | 0, _ => none
  | fuel + 1, input =>
    match skipWs input with
    | '"' :: rest =>
      match parseStringBody fuel rest with
      | none => none
      | some (key, rest2) =>
        match skipWs rest2 with
        | ':' :: rest3 =>
          match parseValue fuel rest3 with
          | none => none
          | some (v, rest4) =>
            match skipWs rest4 with
            | ',' :: rest5 =>
              (parseMembers fuel rest5).map (fun r => ((key, v) :: r.fst, r.snd))
            | d :: rest5 => if d = rbrace then some ([(key, v)], rest5) else none
            | [] => none
        | _ => none
    | _ => none

end

/-- `json.loads` on a whole document: one value, with only whitespace allowed
to remain.  Invalid documents are `none` (Python's `json.JSONDecodeError`). -/
def parseJson (s : String) : Option Json :=
  match parseValue (2 * s.length + 2) s.data with
  | none => none
  | some (v, rest) => if skipWs rest = [] then some v else none

/-- One console message: plain text, or the pretty-printed dump of a JSON
value (`print(json.dumps(event_data, indent=2))`, whose exact layout is
standard-library behaviour and is kept abstract). -/
inductive OutMsg where
  | text (s : String) : OutMsg
  | jsonDump (j : Json) : OutMsg

/-- Outcome of reading the profile file: Python's `FileNotFoundError` or any
other `Exception` (with its rendered message). -/
inductive ReadErr where
  | notFound : ReadErr
  | other (msg : String) : ReadErr

/-- The effect environment for `suggest_events_from_profile`
(`server/routine.py`): the outcome of the profile-file read, of the `Groq()`
client construction, and of the chat-completion call on the given user
content. -/
structure RoutineEnv where
  readProfile : Except ReadErr String
  groqInit : Except String Unit
  apiCall : String → Except String String

/-- Result of stage A: the returned value, everything printed, and how many
chat-completion requests were issued. -/
structure StageAResult where
  result : Option String
  output : List OutMsg
  apiCalls : Nat

/-- `suggest_events_from_profile` (`server/routine.py` lines 6-81): read the
profile file, construct the client, issue one completion request; every fault
is caught, reported, and converted to a `None` result. -/
def suggest_events_from_profile (env : RoutineEnv) (profile_filepath : String) :
    StageAResult :=
  match env.readProfile with
  | .error .notFound =>
    ⟨none,
     [.text ("Error: The file '" ++ (profile_filepath ++ "' was not found.")),
      .text "Please run the quiz script first to generate the profile."],
     0⟩
  | .error (.other e) =>
    ⟨none, [.text ("Error reading file: " ++ e)], 0⟩
  | .ok student_profile =>
    match env.groqInit with
    | .error e =>
      ⟨none,
       [.text ("Error initializing Groq client: " ++ e),
        .text "Please ensure your GROQ_API_KEY is set correctly."],
       0⟩
    | .ok _ =>
      match env.apiCall student_profile with
      | .ok response_content =>
        ⟨some response_content,
         [.text "--- Analyzing Student Profile ---",
          .text "Sending profile to Groq API for suggestions...\n",
          .text "--- Advisor Suggestions ---", .text response_content],
         1⟩
      | .error e =>
        ⟨none,
         [.text "--- Analyzing Student Profile ---",
          .text "Sending profile to Groq API for suggestions...\n",
          .text ("Error during API call: " ++ e),
          .text "Please check your internet connection and API key."],
         1⟩

/-- The effect environment for `convert_text_to_json_events`: the outcome of
the client construction and of the JSON-constrained completion call (mapping
the suggestion text to the returned `json_string`). -/
structure StageBEnv where
  groqInit : Except String Unit
  apiCall : String → Except String String

/-- Result of stage B: the returned value and everything printed. -/
structure StageBResult where
  result : Option Json
  output : List OutMsg

/-- `convert_text_to_json_events` (`server/routine.py` lines 83-175):
construct the client, issue one JSON-constrained completion request, then
`json.loads` the returned text; a parse failure prints the raw text and
returns `None`; the parsed value is returned as-is, with no schema
validation. -/
def convert_text_to_json_events (env : StageBEnv) (suggestion_text : String) :
    StageBResult :=
  match env.groqInit with
  | .error e =>
    ⟨none,
     [.text "\n--- Converting Suggestions to JSON ---",
      .text ("Error initializing Groq client: " ++ e),
      .text "Please ensure your GROQ_API_KEY is set correctly."]⟩
  | .ok _ =>
    match env.apiCall suggestion_text with
    | .error e =>
      ⟨none,
       [.text "\n--- Converting Suggestions to JSON ---",
        .text ("Error during API call: " ++ e),
        .text "Please check your internet connection and API key."]⟩
    | .ok json_string =>
      match parseJson json_string with
      | some event_data =>
        ⟨some event_data,
         [.text "\n--- Converting Suggestions to JSON ---",
          .text "--- Extracted Calendar JSON ---", .jsonDump event_data]⟩
      | none =>
        ⟨none,
         [.text "\n--- Converting Suggestions to JSON ---",
          .text "Error: LLM did not return valid JSON.",
          .text ("Raw output: " ++ json_string)]⟩

/-- Python truthiness of stage A's result: `None` and the empty string are
falsy, every other string is truthy. -/
def pyTruthyStr : Option String → Bool
  | none => false
  | some s => !s.isEmpty

/-- Result of one run of the `__main__` pipeline. -/
structure PipelineResult where
  advice : Option String
  events : Option Json
  stageBRan : Bool

/-- The `__main__` block of `server/routine.py` (lines 178-188): run stage A,
and run stage B exactly when `if suggestion_text:` is truthy. -/
def pipelineMain (envA : RoutineEnv) (envB : StageBEnv) : PipelineResult :=
  match (suggest_events_from_profile envA "profile.txt").result with
  | none => ⟨none, none, false⟩
  | some s =>
    if s.isEmpty then ⟨some s, none, false⟩
    else ⟨some s, (convert_text_to_json_events envB s).result, true⟩

/-- Whether a JSON value is an array. -/
def isJsonArr : Json → Bool
  | .arr _ => true
  | _ => false

/-- Formalisation of the claimed stage-B output shape, in the specification's
words: a mapping containing the key `"events"` bound to a sequence.  Compared
against what `convert_text_to_json_events` actually returns. -/
def isEventsMapping : Json → Bool
  | .obj fields => fields.any (fun kv => kv.fst == "events" && isJsonArr kv.snd)
  | _ => false

/-- The fixed leading text of the average-commute report line. -/
def commuteMarker : String := "* Average Commute:"

/-- Whether a report line is the average-commute line. -/
def isCommuteLine (l : String) : Bool := commuteMarker.data.isPrefixOf l.data

/-- The literal placeholder line for an empty commitments list. -/
def placeholderLine : String := "  - No fixed commitments reported."

/-- Whether a report line is the no-commitments placeholder. -/
def isPlaceholderLine (l : String) : Bool := l == placeholderLine

/-- Whether the rendered report contains the average-commute line. -/
def hasCommuteLine (p : Profile) : Bool := (buildReportLines p).any isCommuteLine

/-- Whether the rendered report contains the no-commitments placeholder. -/
def hasPlaceholderLine (p : Profile) : Bool :=
  (buildReportLines p).any isPlaceholderLine

/-- Boolean clash between two strings: neither is a prefix of the other (so no
string extending either can equal, or be prefixed by, the other). -/
def clashB (p f : String) : Bool :=
  !(p.data.isPrefixOf f.data) && !(f.data.isPrefixOf p.data)

/-- A concrete completed commuter profile, used to instantiate theorems. -/
def sampleCommuter : Profile :=
  ⟨"Off-Campus (Commuter)", "Lot 4", some "30 minutes",
   [commitment_str "Chem 101" "MWF" "9:00" "10:00" "Hall A"],
   "7:00 AM", "11:00 PM", "9:00 AM", "5:00 PM", "Afternoon",
   "Standard Sessions (e.g., 50 min work, 10 min break)",
   "Warm-Up (Schedule 1-2 easy tasks first)",
   ["Library", "Dorm"], "15", "I cook my own meals",
   "3 times a week", "60-90 minutes", "Yes, 8-10pm"⟩

/-- A concrete completed resident profile with no commitments. -/
def sampleResident : Profile :=
  ⟨"On-Campus Resident", "North Campus", none, [],
   "8:00 AM", "12:00 AM", "10:00 AM", "6:00 PM",
   "Evening / Late Night (I'm a 'night owl')",
   "Short Bursts (e.g., Pomodoro - 25 min work, 5 min break)",
   "Schedule my hardest, most-dreaded tasks first",
   [], "20", "I go to the dining hall",
   "2 times a week", "45 minutes", "No, fill my free time"⟩

/-- A stage-A environment whose profile file is absent. -/
def envNotFound : RoutineEnv :=
  ⟨.error .notFound, .ok (), fun _ => .ok "advice"⟩

/-- A stage-A environment whose profile-file read fails for another reason. -/
def envReadFault : RoutineEnv :=
  ⟨.error (.other "Permission denied"), .ok (), fun _ => .ok "advice"⟩

/-- A stage-A environment whose completion call fails in transport. -/
def envApiFault : RoutineEnv :=
  ⟨.ok "profile text", .ok (), fun _ => .error "Connection timed out"⟩

/-- A stage-A environment that succeeds with non-empty advice text. -/
def envAdviceOk : RoutineEnv :=
  ⟨.ok "profile text", .ok (), fun _ => .ok "Go to the gym at 6pm."⟩

/-- A stage-A environment that succeeds with empty advice text. -/
def envAdviceEmpty : RoutineEnv :=
  ⟨.ok "profile text", .ok (), fun _ => .ok ""⟩

/-- A stage-B environment whose completion call returns the JSON text `[1]`. -/
def envJsonArr : StageBEnv := ⟨.ok (), fun _ => .ok "[1]"⟩

/-- A stage-B environment whose completion call returns invalid JSON text. -/
def envJsonBad : StageBEnv := ⟨.ok (), fun _ => .ok "not json at all"⟩

/-! Helper lemmas shared by the claim theorems. -/

/-- The substring test agrees with contiguous-sublist containment. -/
theorem containsSub_eq_true_iff (needle hay : List Char) :
    containsSub needle hay = true ↔ needle <:+: hay := by
  induction hay with
  | nil => simp [containsSub, List.isEmpty_iff]
  | cons c rest ih =>
    simp [containsSub, ih, List.infix_cons_iff]

/-- A string containing `"just fill"` also contains `"fill"`. -/
theorem strContains_fill_of_justfill (s : String)
    (h : strContains s "just fill" = true) : strContains s "fill" = true := by
  rw [strContains, containsSub_eq_true_iff] at h ⊢
  exact List.IsInfix.trans (by decide) h

/-- The source's three-clause burnout guard equals the specification's
two-substring condition: the `'just fill'` clause is redundant. -/
theorem burnoutCond_eq_spec (dt : String) : burnoutCond dt = burnoutCondSpec dt := by
  unfold burnoutCond burnoutCondSpec
  cases h : strContains (pyLower dt) "just fill"
  · simp [h]
  · simp [h, strContains_fill_of_justfill _ h]

/-- A string cannot equal an extension of a string that is not its prefix. -/
theorem ne_append_of_not_pre (a f s : String)
    (h : f.data.isPrefixOf a.data = false) : a ≠ f ++ s := by
  intro heq
  have hp : f.data <+: a.data := by
    rw [heq, String.data_append]
    exact List.prefix_append _ _
  rw [← List.isPrefixOf_iff_prefix, h] at hp
  exact Bool.false_ne_true hp

/-- If neither of two strings is a prefix of the other, the first is not a
prefix of any extension of the second. -/
theorem not_pre_append_of_clash (p f s : String) (h : clashB p f = true) :
    p.data.isPrefixOf (f ++ s).data = false := by
  simp only [clashB, Bool.and_eq_true, Bool.not_eq_true',
    Bool.eq_false_iff] at h
  cases hb : p.data.isPrefixOf (f ++ s).data
  · rfl
  · exfalso
    have hp : p.data <+: (f ++ s).data := List.isPrefixOf_iff_prefix.mp hb
    rw [String.data_append] at hp
    rcases List.prefix_or_prefix_of_prefix hp (List.prefix_append f.data s.data)
      with h1 | h1
    · exact h.1 (List.isPrefixOf_iff_prefix.mpr h1)
    · exact h.2 (List.isPrefixOf_iff_prefix.mpr h1)

/-- A line whose fixed leading text clashes with the commute marker is not the
commute line, whatever its interpolated tail. -/
theorem isCommuteLine_append_false (f s : String)
    (h : clashB commuteMarker f = true) : isCommuteLine (f ++ s) = false :=
  not_pre_append_of_clash _ _ _ h

/-- A line whose fixed leading text extends the commute marker is the commute
line, whatever its interpolated tail. -/
theorem isCommuteLine_append_true (f s : String)
    (h : commuteMarker.data.isPrefixOf f.data = true) :
    isCommuteLine (f ++ s) = true := by
  unfold isCommuteLine
  rw [List.isPrefixOf_iff_prefix] at h ⊢
  rw [String.data_append]
  exact h.trans (List.prefix_append _ _)

/-- A line whose fixed leading text is not a prefix of the placeholder line is
not the placeholder, whatever its interpolated tail. -/
theorem isPlaceholderLine_append_false (f s : String)
    (h : f.data.isPrefixOf placeholderLine.data = false) :
    isPlaceholderLine (f ++ s) = false := by
  unfold isPlaceholderLine
  rw [beq_eq_false_iff_ne]
  exact fun heq => ne_append_of_not_pre placeholderLine f s h heq.symm

/-- No commitment summary string reads like the placeholder text: every
commitment contains an opening parenthesis. -/
theorem commitment_str_ne (n d s e l : String) :
    commitment_str n d s e l ≠ "No fixed commitments reported." := by
  intro h
  have hmem : '(' ∈ (commitment_str n d s e l).data := by
    unfold commitment_str
    rw [String.data_append]
    refine List.mem_append.mpr (Or.inr ?_)
    rw [String.data_append]
    exact List.mem_append.mpr (Or.inl (by decide))
  rw [h] at hmem
  exact absurd hmem (by decide)

/-- Two lists with distinct known last elements: the first is not a suffix of
anything extending the second on the left. -/
theorem not_suffix_of_getLast_ne (Y l₁ l₂ : List String) (a b : String)
    (h1 : l₁.getLast? = some a) (h2 : l₂.getLast? = some b) (hne : a ≠ b) :
    ¬ l₁ <:+ Y ++ l₂ := by
  intro hs
  obtain ⟨t, ht⟩ := hs
  have hl : (t ++ l₁).getLast? = (Y ++ l₂).getLast? := by rw [ht]
  rw [List.getLast?_append, List.getLast?_append, h1, h2] at hl
  simp only [Option.or_some] at hl
  exact hne (Option.some.injEq a b ▸ hl)

/-- The header block contains no commute line. -/
theorem anyCommute_header : headerLines.any isCommuteLine = false := rfl

/-- Section 2 contains no commute line, whatever the profile. -/
theorem anyCommute_sec2 (p : Profile) : (sec2Lines p).any isCommuteLine = false := by
  simp only [sec2Lines, List.any_cons, List.any_nil, Bool.or_false,
    Bool.or_eq_false_iff]
  exact ⟨rfl, isCommuteLine_append_false _ _ rfl, isCommuteLine_append_false _ _ rfl,
    isCommuteLine_append_false _ _ rfl, rfl, isCommuteLine_append_false _ _ rfl, rfl⟩

/-- Section 3 contains no commute line, whatever the profile. -/
theorem anyCommute_sec3 (p : Profile) : (sec3Lines p).any isCommuteLine = false := by
  simp only [sec3Lines, List.any_cons, List.any_nil, Bool.or_false,
    Bool.or_eq_false_iff]
  exact ⟨rfl, isCommuteLine_append_false _ _ rfl, isCommuteLine_append_false _ _ rfl,
    isCommuteLine_append_false _ _ rfl, isCommuteLine_append_false _ _ rfl,
    isCommuteLine_append_false _ _ rfl, rfl, isCommuteLine_append_false _ _ rfl, rfl⟩

/-- Section 4 contains no commute line, whatever the profile. -/
theorem anyCommute_sec4 (p : Profile) : (sec4Lines p).any isCommuteLine = false := by
  simp only [sec4Lines, List.any_cons, List.any_nil, Bool.or_false,
    Bool.or_eq_false_iff]
  exact ⟨rfl, isCommuteLine_append_false _ _ rfl, isCommuteLine_append_false _ _ rfl,
    isCommuteLine_append_false _ _ rfl, isCommuteLine_append_false _ _ rfl⟩

/-- The closing annotation contains no commute line, whatever the profile. -/
theorem anyCommute_final (p : Profile) :
    (finalNoteLines p).any isCommuteLine = false := by
  unfold finalNoteLines
  split
  · simp only [burnoutLines, List.any_cons, List.any_nil, Bool.or_false,
      Bool.or_eq_false_iff]
    exact ⟨rfl, rfl, isCommuteLine_append_false _ _ rfl, rfl, rfl⟩
  · rfl

/-- The commitments block contains no commute line, whatever the profile. -/
theorem anyCommute_commitments (p : Profile) :
    (commitmentLines p).any isCommuteLine = false := by
  unfold commitmentLines
  split
  · rfl
  · rw [List.any_map, List.any_eq_false]
    intro x _
    simp only [Function.comp_apply]
    rw [isCommuteLine_append_false "  - " x rfl]
    simp

/-- The optional commute block contains the commute line exactly when the
`commute_time` key is present. -/
theorem anyCommute_commute (p : Profile) :
    (commuteLines p).any isCommuteLine = p.commute_time.isSome := by
  unfold commuteLines
  cases h : p.commute_time with
  | none => rfl
  | some c =>
    simp only [List.any_cons, List.any_nil, Bool.or_false, Option.isSome_some]
    exact isCommuteLine_append_true _ _ rfl

/-- The rendered report contains the average-commute line exactly when the
`commute_time` key is present in the profile. -/
theorem hasCommuteLine_eq (p : Profile) :
    hasCommuteLine p = p.commute_time.isSome := by
  have h1 : isCommuteLine "--- 1. Logistics & Commitments ---" = false := rfl
  have h2 : isCommuteLine ("* Living Situation: " ++ p.living_situation) = false :=
    isCommuteLine_append_false _ _ rfl
  have h3 : isCommuteLine ("* Home Base / Parking: " ++ p.home_base) = false :=
    isCommuteLine_append_false _ _ rfl
  have h4 : isCommuteLine "\n* Fixed Commitments:" = false := rfl
  have h5 : isCommuteLine ("\n" ++ eqBanner) = false :=
    isCommuteLine_append_false _ _ rfl
  unfold hasCommuteLine buildReportLines sec1Lines
  simp only [List.any_append, List.any_cons, List.any_nil, anyCommute_header,
    anyCommute_sec2, anyCommute_sec3, anyCommute_sec4, anyCommute_final,
    anyCommute_commitments, anyCommute_commute, h1, h2, h3, h4, h5,
    Bool.or_false, Bool.false_or]

/-! Claim theorems. -/

/-- Claim C5: rendering is deterministic and pure — the report builder is a
function of the `Profile` alone, so equal profiles render to byte-identical
report text. -/
theorem claim_C5_render_deterministic (p q : Profile) (h : p = q) :
    final_report p = final_report q := by rw [h]

/-- Witness for claim C5 at a concrete profile. -/
theorem claim_C5_witness :
    final_report sampleCommuter = final_report sampleCommuter :=
  claim_C5_render_deterministic sampleCommuter sampleCommuter rfl

/-- Claim C4: when the write to profile.txt fails, `print_summary` catches the
failure, reports it together with the underlying cause, and still surfaces the
full report text to the console — rendering never aborts. -/
theorem claim_C4_write_failure_surfaces_report (p : Profile) (e : String) :
    print_summary p (.error e) =
      ["\n--- ERROR ---",
       "Could not save profile to 'profile.txt'. Error: " ++ e,
       "Here is your profile output instead:\n",
       final_report p] ∧
    final_report p ∈ print_summary p (.error e) := by
  refine ⟨rfl, ?_⟩
  simp [print_summary]

/-- Claim C3: every failure path of `suggest_events_from_profile` returns
`None` with the corresponding diagnostic printed — the missing-file path
directs the user to run collection first — and the completion call is issued
at most once (no retry). -/
theorem claim_C3_stageA_failure_paths (env : RoutineEnv) (path : String) :
    (env.readProfile = .error .notFound →
      suggest_events_from_profile env path =
        ⟨none,
         [.text ("Error: The file '" ++ (path ++ "' was not found.")),
          .text "Please run the quiz script first to generate the profile."],
         0⟩) ∧
    (∀ e, env.readProfile = .error (.other e) →
      suggest_events_from_profile env path =
        ⟨none, [.text ("Error reading file: " ++ e)], 0⟩) ∧
    (∀ s e, env.readProfile = .ok s → env.groqInit = .ok () →
      env.apiCall s = .error e →
      (suggest_events_from_profile env path).result = none ∧
      OutMsg.text ("Error during API call: " ++ e)
        ∈ (suggest_events_from_profile env path).output ∧
      (suggest_events_from_profile env path).apiCalls = 1) := by
  refine ⟨?_, ?_, ?_⟩
  · intro h
    simp only [suggest_events_from_profile, h]
  · intro e h
    simp only [suggest_events_from_profile, h]
  · intro s e h1 h2 h3
    refine ⟨?_, ?_, ?_⟩
    · simp only [suggest_events_from_profile, h1, h2, h3]
    · simp [suggest_events_from_profile, h1, h2, h3]
    · simp only [suggest_events_from_profile, h1, h2, h3]

/-- Witness for claim C3: the three failure environments all yield `None`, and
the transport-fault run issued exactly one call. -/
theorem claim_C3_witness :
    (suggest_events_from_profile envNotFound "profile.txt").result = none ∧
    (suggest_events_from_profile envReadFault "profile.txt").result = none ∧
    (suggest_events_from_profile envApiFault "profile.txt").result = none ∧
    (suggest_events_from_profile envApiFault "profile.txt").apiCalls = 1 := by
  refine ⟨?_, ?_, ?_, ?_⟩
  · rw [(claim_C3_stageA_failure_paths envNotFound "profile.txt").1 rfl]
  · rw [(claim_C3_stageA_failure_paths envReadFault "profile.txt").2.1
      "Permission denied" rfl]
  · exact ((claim_C3_stageA_failure_paths envApiFault "profile.txt").2.2
      "profile text" "Connection timed out" rfl rfl rfl).1
  · exact ((claim_C3_stageA_failure_paths envApiFault "profile.txt").2.2
      "profile text" "Connection timed out" rfl rfl rfl).2.2

/-- Claim C7: `get_list_items` terminates exactly at the first entry that
case-insensitively equals "done", excludes the terminator, and returns all
earlier entries in order; the empty list (terminator first) is valid. -/
theorem claim_C7_list_collection (pre : List String) (t : String)
    (post : List String) (hpre : ∀ x ∈ pre, pyLower x ≠ "done")
    (ht : pyLower t = "done") :
    get_list_items (pre ++ t :: post) = some pre := by
  induction pre with
  | nil => simp [get_list_items, ht]
  | cons a as ih =>
    have ha : pyLower a ≠ "done" := hpre a (List.mem_cons_self a as)
    simp only [List.cons_append, get_list_items, if_neg ha, List.append_eq]
    rw [ih (fun x hx => hpre x (List.mem_cons_of_mem a hx))]
    rfl

/-- Witness for claim C7: "DONE" and "Done" both terminate, are excluded, and
earlier entries are kept in order; the empty result is valid. -/
theorem claim_C7_witness :
    get_list_items (["Library", "Dorm"] ++ "DONE" :: ["ignored"])
      = some ["Library", "Dorm"] ∧
    get_list_items ([] ++ "Done" :: []) = some [] := by
  constructor
  · exact claim_C7_list_collection ["Library", "Dorm"] "DONE" ["ignored"]
      (by decide) (by decide)
  · exact claim_C7_list_collection [] "Done" [] (by decide) (by decide)

/-- Claim C10: in the `__main__` pipeline, stage B runs exactly when stage A
returned a truthy string — a successful stage A returning the empty string
halts the pipeline just like a `None` failure. -/
theorem claim_C10_stageB_gating (envA : RoutineEnv) (envB : StageBEnv) :
    (pipelineMain envA envB).stageBRan =
      pyTruthyStr (suggest_events_from_profile envA "profile.txt").result ∧
    ((suggest_events_from_profile envA "profile.txt").result = some "" →
      (pipelineMain envA envB).stageBRan = false) := by
  constructor
  · cases h : (suggest_events_from_profile envA "profile.txt").result with
    | none => simp [pipelineMain, pyTruthyStr, h]
    | some s =>
      by_cases hs : s.isEmpty <;> simp [pipelineMain, pyTruthyStr, h, hs]
  · intro h
    simp only [pipelineMain, h]
    rfl

/-- Witness for claim C10: empty advice does not run stage B; non-empty advice
does. -/
theorem claim_C10_witness :
    (pipelineMain envAdviceEmpty envJsonArr).stageBRan = false ∧
    (pipelineMain envAdviceOk envJsonArr).stageBRan = true := by
  constructor
  · exact (claim_C10_stageB_gating envAdviceEmpty envJsonArr).2 rfl
  · exact ((claim_C10_stageB_gating envAdviceOk envJsonArr).1).trans rfl

/-- Claim C1 (amended): for every text the stage-B external call returns, the
stage returns whatever JSON value parses — the code performs no events-schema
validation, so the result need not be a mapping with an "events" key — and on
invalid JSON it prints the raw text for diagnostics and returns `None`; the
embedding is a total function, so no fault escapes either way. -/
theorem claim_C1_stageB_parse_dichotomy (env : StageBEnv) (s js : String)
    (hinit : env.groqInit = .ok ()) (hapi : env.apiCall s = .ok js) :
    (∀ j, parseJson js = some j →
      (convert_text_to_json_events env s).result = some j) ∧
    (parseJson js = none →
      (convert_text_to_json_events env s).result = none ∧
      OutMsg.text ("Raw output: " ++ js)
        ∈ (convert_text_to_json_events env s).output) := by
  constructor
  · intro j hj
    simp only [convert_text_to_json_events, hinit, hapi, hj]
  · intro hj
    refine ⟨?_, ?_⟩
    · simp only [convert_text_to_json_events, hinit, hapi, hj]
    · simp [convert_text_to_json_events, hinit, hapi, hj]

/-- Witness for claim C1's amended theorem: invalid JSON yields `None` with
the raw text printed. -/
theorem claim_C1_witness :
    (convert_text_to_json_events envJsonBad "advice").result = none ∧
    OutMsg.text ("Raw output: " ++ "not json at all")
      ∈ (convert_text_to_json_events envJsonBad "advice").output :=
  (claim_C1_stageB_parse_dichotomy envJsonBad "advice" "not json at all"
    rfl rfl).2 rfl

/-- Claim C1 counterexample: on the valid JSON text `[1]` the stage returns
the parsed array — which is not a mapping containing the key "events" bound to
a sequence, and not the `None`-with-raw-text outcome either — refuting the
dichotomy as originally stated. -/
theorem claim_C1_counterexample :
    (convert_text_to_json_events envJsonArr "advice").result
      = some (Json.arr [Json.num 1]) ∧
    isEventsMapping (Json.arr [Json.num 1]) = false :=
  ⟨rfl, rfl⟩

/-- Claim C6: the menu loop returns the selected option's text exactly when
the input parses as an integer in `[1, N]`; non-numeric and out-of-range
inputs are each rejected with their corrective message and the loop
re-prompts on the remaining script.  The loop is a function of the option list
and its own input script alone, so no previously collected answer changes. -/
theorem claim_C6_menu_validation (options : List String) (input : String)
    (rest : List String) :
    (∀ n : Int, pyParseInt input = some n → 1 ≤ n → n ≤ (options.length : Int) →
      (get_choice options (input :: rest)).fst = options[(n - 1).toNat]? ∧
      (options[(n - 1).toNat]?).isSome = true ∧
      (get_choice options (input :: rest)).snd = []) ∧
    (∀ n : Int, pyParseInt input = some n →
      ¬(1 ≤ n ∧ n ≤ (options.length : Int)) →
      get_choice options (input :: rest) =
        ((get_choice options rest).fst,
         ("Invalid choice. Please enter a number between 1 and "
           ++ (toString options.length ++ ".")) :: (get_choice options rest).snd)) ∧
    (pyParseInt input = none →
      get_choice options (input :: rest) =
        ((get_choice options rest).fst,
         "Invalid input. Please enter a number." :: (get_choice options rest).snd)) := by
  refine ⟨?_, ?_, ?_⟩
  · intro n hn h1 h2
    refine ⟨?_, ?_, ?_⟩
    · simp only [get_choice, hn, if_pos (And.intro h1 h2)]
    · rw [Option.isSome_iff_ne_none]
      intro hnone
      rw [List.getElem?_eq_none_iff] at hnone
      omega
    · simp only [get_choice, hn, if_pos (And.intro h1 h2)]
  · intro n hn hrange
    simp only [get_choice, hn, if_neg hrange]
  · intro hn
    simp only [get_choice, hn]

/-- Witness for claim C6: input "2" over three options selects the text "b";
non-numeric input "x" is rejected with the corrective message and the
re-prompt then succeeds. -/
theorem claim_C6_witness :
    (get_choice ["a", "b", "c"] ["2"]).fst = some "b" ∧
    get_choice ["a", "b", "c"] ["x", "2"] =
      (some "b", ["Invalid input. Please enter a number."]) := by
  constructor
  · have h := (claim_C6_menu_validation ["a", "b", "c"] "2" []).1 2 rfl
      (by decide) (by decide)
    rw [h.1]
    rfl
  · have hx := (claim_C6_menu_validation ["a", "b", "c"] "x" ["2"]).2.2 rfl
    rw [hx]
    rfl

/-- Claim C8: for a complete profile (the `commute_time` key set exactly for
the commuter option, as `main` builds it), the rendered report contains the
average-commute line iff `living_situation` is the commuter option. -/
theorem claim_C8_commute_line_iff (p : Profile)
    (hwf : p.commute_time.isSome = true ↔
      p.living_situation = "Off-Campus (Commuter)") :
    (hasCommuteLine p = true ↔
      p.living_situation = "Off-Campus (Commuter)") := by
  rw [hasCommuteLine_eq]
  exact hwf

/-- Witness for claim C8: a concrete commuter profile renders the commute
line; a concrete resident profile does not. -/
theorem claim_C8_witness :
    hasCommuteLine sampleCommuter = true ∧
    hasCommuteLine sampleResident = false := by
  have hwfC : sampleCommuter.commute_time.isSome = true ↔
      sampleCommuter.living_situation = "Off-Campus (Commuter)" :=
    ⟨fun _ => rfl, fun _ => rfl⟩
  have hwfR : sampleResident.commute_time.isSome = true ↔
      sampleResident.living_situation = "Off-Campus (Commuter)" := by
    constructor
    · intro h
      exact absurd h (by decide)
    · intro h
      exact absurd h (by decide)
  constructor
  · exact (claim_C8_commute_line_iff sampleCommuter hwfC).mpr rfl
  · cases hb : hasCommuteLine sampleResident
    · rfl
    · exact absurd ((claim_C8_commute_line_iff sampleResident hwfR).mp hb)
        (by decide)

/-- The header block contains no placeholder line. -/
theorem anyPh_header : headerLines.any isPlaceholderLine = false := rfl

/-- Section 2 contains no placeholder line, whatever the profile. -/
theorem anyPh_sec2 (p : Profile) : (sec2Lines p).any isPlaceholderLine = false := by
  simp only [sec2Lines, List.any_cons, List.any_nil, Bool.or_false,
    Bool.or_eq_false_iff]
  exact ⟨rfl, isPlaceholderLine_append_false _ _ rfl,
    isPlaceholderLine_append_false _ _ rfl, isPlaceholderLine_append_false _ _ rfl,
    rfl, isPlaceholderLine_append_false _ _ rfl, rfl⟩

/-- Section 3 contains no placeholder line, whatever the profile. -/
theorem anyPh_sec3 (p : Profile) : (sec3Lines p).any isPlaceholderLine = false := by
  simp only [sec3Lines, List.any_cons, List.any_nil, Bool.or_false,
    Bool.or_eq_false_iff]
  exact ⟨rfl, isPlaceholderLine_append_false _ _ rfl,
    isPlaceholderLine_append_false _ _ rfl, isPlaceholderLine_append_false _ _ rfl,
    isPlaceholderLine_append_false _ _ rfl, isPlaceholderLine_append_false _ _ rfl,
    rfl, isPlaceholderLine_append_false _ _ rfl, rfl⟩

/-- Section 4 contains no placeholder line, whatever the profile. -/
theorem anyPh_sec4 (p : Profile) : (sec4Lines p).any isPlaceholderLine = false := by
  simp only [sec4Lines, List.any_cons, List.any_nil, Bool.or_false,
    Bool.or_eq_false_iff]
  exact ⟨rfl, isPlaceholderLine_append_false _ _ rfl,
    isPlaceholderLine_append_false _ _ rfl, isPlaceholderLine_append_false _ _ rfl,
    isPlaceholderLine_append_false _ _ rfl⟩

/-- The closing annotation contains no placeholder line, whatever the
profile. -/
theorem anyPh_final (p : Profile) :
    (finalNoteLines p).any isPlaceholderLine = false := by
  unfold finalNoteLines
  split
  · simp only [burnoutLines, List.any_cons, List.any_nil, Bool.or_false,
      Bool.or_eq_false_iff]
    exact ⟨rfl, rfl, isPlaceholderLine_append_false _ _ rfl, rfl, rfl⟩
  · rfl

/-- The optional commute block contains no placeholder line. -/
theorem anyPh_commute (p : Profile) :
    (commuteLines p).any isPlaceholderLine = false := by
  unfold commuteLines
  cases h : p.commute_time with
  | none => rfl
  | some c =>
    simp only [List.any_cons, List.any_nil, Bool.or_false]
    exact isPlaceholderLine_append_false _ _ rfl

/-- A rendered commitment bullet is never the placeholder line: commitment
summary strings always contain a parenthesis. -/
theorem isPlaceholder_commitment (c : String)
    (hc : ∃ n d s e l, c = commitment_str n d s e l) :
    isPlaceholderLine ("  - " ++ c) = false := by
  obtain ⟨n, d, s, e, l, rfl⟩ := hc
  unfold isPlaceholderLine
  rw [beq_eq_false_iff_ne]
  intro heq
  have hdata := congrArg String.data heq
  rw [String.data_append] at hdata
  have hph : placeholderLine.data =
      "  - ".data ++ "No fixed commitments reported.".data := by decide
  rw [hph] at hdata
  exact commitment_str_ne n d s e l (String.ext (List.append_cancel_left hdata))

/-- The commitments block shows the placeholder exactly when the commitments
list is empty (given that every commitment is a rendered summary string). -/
theorem anyPh_commitments (p : Profile)
    (hwf : ∀ c ∈ p.commitments, ∃ n d s e l, c = commitment_str n d s e l) :
    (commitmentLines p).any isPlaceholderLine = p.commitments.isEmpty := by
  unfold commitmentLines
  split
  · next h => rw [h]; rfl
  · next h =>
    have hf : p.commitments.isEmpty = false := by
      cases hb : p.commitments.isEmpty
      · rfl
      · exact absurd hb h
    rw [hf, List.any_map, List.any_eq_false]
    intro x hx
    simp only [Function.comp_apply]
    rw [isPlaceholder_commitment x (hwf x hx)]
    simp

/-- The rendered report contains the placeholder line exactly when the
commitments list is empty. -/
theorem hasPlaceholder_eq (p : Profile)
    (hwf : ∀ c ∈ p.commitments, ∃ n d s e l, c = commitment_str n d s e l) :
    hasPlaceholderLine p = p.commitments.isEmpty := by
  have h1 : isPlaceholderLine "--- 1. Logistics & Commitments ---" = false := rfl
  have h2 : isPlaceholderLine ("* Living Situation: " ++ p.living_situation)
      = false := isPlaceholderLine_append_false _ _ rfl
  have h3 : isPlaceholderLine ("* Home Base / Parking: " ++ p.home_base)
      = false := isPlaceholderLine_append_false _ _ rfl
  have h4 : isPlaceholderLine "\n* Fixed Commitments:" = false := rfl
  have h5 : isPlaceholderLine ("\n" ++ eqBanner) = false :=
    isPlaceholderLine_append_false _ _ rfl
  unfold hasPlaceholderLine buildReportLines sec1Lines
  simp only [List.any_append, List.any_cons, List.any_nil, anyPh_header,
    anyPh_sec2, anyPh_sec3, anyPh_sec4, anyPh_final, anyPh_commute,
    anyPh_commitments p hwf, h1, h2, h3, h4, h5, Bool.or_false, Bool.false_or]

/-- Claim C9: the fixed-commitments section shows the literal placeholder line
exactly when the commitments list is empty; every collected commitment renders
as its own bullet line; and the commitment format yields
"Chem 101 (Hall A) on MWF from 9:00 to 10:00" for the example fields. -/
theorem claim_C9_commitments_rendering (p : Profile)
    (hwf : ∀ c ∈ p.commitments, ∃ n d s e l, c = commitment_str n d s e l) :
    (hasPlaceholderLine p = true ↔ p.commitments = []) ∧
    (∀ c ∈ p.commitments, ("  - " ++ c) ∈ buildReportLines p) ∧
    commitment_str "Chem 101" "MWF" "9:00" "10:00" "Hall A"
      = "Chem 101 (Hall A) on MWF from 9:00 to 10:00" := by
  refine ⟨?_, ?_, rfl⟩
  · rw [hasPlaceholder_eq p hwf]
    exact List.isEmpty_iff
  · intro c hc
    have hne : p.commitments.isEmpty = false := by
      cases hb : p.commitments.isEmpty
      · rfl
      · rw [List.isEmpty_iff] at hb
        rw [hb] at hc
        exact absurd hc (List.not_mem_nil c)
    have hmem : ("  - " ++ c) ∈ commitmentLines p := by
      unfold commitmentLines
      rw [hne]
      simp only [Bool.false_eq_true, if_false]
      exact List.mem_map_of_mem _ hc
    have hsec1 : ("  - " ++ c) ∈ sec1Lines p := by
      unfold sec1Lines
      exact List.mem_append_right _ hmem
    unfold buildReportLines
    exact List.mem_append_left _ (List.mem_append_left _ (List.mem_append_left _
      (List.mem_append_left _ (List.mem_append_left _
        (List.mem_append_right _ hsec1)))))

/-- Witness for claim C9: the empty-commitments resident profile shows the
placeholder; the commuter profile with the Chem 101 commitment does not, and
renders the commitment as its own bullet line. -/
theorem claim_C9_witness :
    hasPlaceholderLine sampleResident = true ∧
    hasPlaceholderLine sampleCommuter = false ∧
    ("  - " ++ commitment_str "Chem 101" "MWF" "9:00" "10:00" "Hall A")
      ∈ buildReportLines sampleCommuter := by
  have hwfR : ∀ c ∈ sampleResident.commitments,
      ∃ n d s e l, c = commitment_str n d s e l := by
    intro c hc
    exact absurd hc (List.not_mem_nil c)
  have hwfC : ∀ c ∈ sampleCommuter.commitments,
      ∃ n d s e l, c = commitment_str n d s e l := by
    intro c hc
    have hc2 : c ∈ [commitment_str "Chem 101" "MWF" "9:00" "10:00" "Hall A"] := hc
    rw [List.mem_singleton] at hc2
    exact ⟨"Chem 101", "MWF", "9:00", "10:00", "Hall A", hc2⟩
  refine ⟨?_, ?_, ?_⟩
  · exact (claim_C9_commitments_rendering sampleResident hwfR).1.mpr rfl
  · cases hb : hasPlaceholderLine sampleCommuter
    · rfl
    · have := (claim_C9_commitments_rendering sampleCommuter hwfC).1.mp hb
      exact absurd this (by simp [sampleCommuter])
  · exact (claim_C9_commitments_rendering sampleCommuter hwfC).2.1 _
      (show commitment_str "Chem 101" "MWF" "9:00" "10:00" "Hall A"
          ∈ sampleCommuter.commitments from List.mem_singleton.mpr rfl)

/-- Claim C2: the report always closes with the fixed banner line, and the
text right before it (the lines remaining after dropping that final banner)
ends with the burnout-risk block — quoting the verbatim downtime response —
exactly when the case-folded downtime contains "no" or "fill"; otherwise it
ends with the neutral affirming note.  The claim's three examples are included:
"No, fill my free time" and "NOTHING PLANNED" select the burnout block,
"Yes, 8-10pm" the neutral one. -/
theorem claim_C2_burnout_split (p : Profile) :
    (burnoutLines p.downtime <:+ (buildReportLines p).dropLast ↔
      burnoutCondSpec p.downtime = true) ∧
    (neutralLines <:+ (buildReportLines p).dropLast ↔
      burnoutCondSpec p.downtime = false) ∧
    burnoutCondSpec "No, fill my free time" = true ∧
    burnoutCondSpec "NOTHING PLANNED" = true ∧
    burnoutCondSpec "Yes, 8-10pm" = false := by
  have hdrop : (buildReportLines p).dropLast =
      headerLines ++ sec1Lines p ++ sec2Lines p ++ sec3Lines p ++ sec4Lines p
        ++ finalNoteLines p := by
    unfold buildReportLines
    rw [List.dropLast_concat]
  cases hcond : burnoutCondSpec p.downtime
  · have hfinal : finalNoteLines p = neutralLines := by
      unfold finalNoteLines
      rw [burnoutCond_eq_spec, hcond]
      rfl
    rw [hdrop, hfinal]
    refine ⟨⟨?_, ?_⟩, ⟨fun _ => rfl, fun _ => List.suffix_append _ _⟩,
      by decide, by decide, by decide⟩
    · intro hs
      exact absurd hs (not_suffix_of_getLast_ne _ _ _
        "  area for intervention and discussion."
        "    building a sustainable work-life balance."
        (by simp [burnoutLines]) (by simp [neutralLines]) (by decide))
    · intro h
      exact absurd h (by simp)
  · have hfinal : finalNoteLines p = burnoutLines p.downtime := by
      unfold finalNoteLines
      rw [burnoutCond_eq_spec, hcond]
      rfl
    rw [hdrop, hfinal]
    refine ⟨⟨fun _ => rfl, fun _ => List.suffix_append _ _⟩, ⟨?_, ?_⟩,
      by decide, by decide, by decide⟩
    · intro hs
      exact absurd hs (not_suffix_of_getLast_ne _ _ _
        "    building a sustainable work-life balance."
        "  area for intervention and discussion."
        (by simp [neutralLines]) (by simp [burnoutLines]) (by decide))
    · intro h
      exact absurd h (by simp)

end Momentum
